import Mathlib

/-!
Verification of the Kenyan-ID KYC validation service.

The repository holds three near-duplicate Python implementations
(`app/`, `kyc-validator/`, `src/`) of the same pipeline: format
validators for ID and phone numbers, OCR field extraction from ID-card
text, facial comparison, and an aggregated verdict.  This file gives a
shallow embedding of the pure logic of those functions and proves or
refutes the specification's claims about them.

Python strings are modelled as `List Char` (ASCII is all the source's
patterns use); Python `None`-able values as `Option`; the external
engines (EasyOCR, face_recognition, phonenumbers) as opaque parameters,
exactly as the spec declares them out of scope.  Floating-point
distances are modelled as rationals: every claim about them is an
order/sign fact that does not depend on rounding.
-/

/-- Python `str` as a list of characters. -/
abbrev Str := List Char

/-- Python `c.isdigit()` for a single ASCII character (also the regex class `\d`). -/
def pyIsDigit (c : Char) : Bool := c.isDigit

/-- Substring containment, Python's `needle in hay` for strings. -/
def containsSub (needle : Str) : Str → Bool
  | [] => needle.isPrefixOf []
  | c :: t => needle.isPrefixOf (c :: t) || containsSub needle t

/-- Python `s.lower()` (ASCII). -/
def pyLower (s : Str) : Str := s.map Char.toLower

/-- Python `s.upper()` (ASCII). -/
def pyUpper (s : Str) : Str := s.map Char.toUpper

/-- Python `s.strip()`: drop whitespace from both ends. -/
def pyStrip (s : Str) : Str :=
  ((s.dropWhile Char.isWhitespace).reverse.dropWhile Char.isWhitespace).reverse

/-- Python `s.split()` with no argument: maximal non-whitespace runs, empties dropped. -/
def splitWsAux : Str → Str → List Str
  | [], acc => if acc = [] then [] else [acc.reverse]
  | c :: rest, acc =>
    if c.isWhitespace then
      if acc = [] then splitWsAux rest [] else acc.reverse :: splitWsAux rest []
    else splitWsAux rest (c :: acc)

/-- Python `s.split()` with no argument. -/
def splitWs (s : Str) : List Str := splitWsAux s []

/-- Python `s.split(sep)` for a one-character separator, keeping empty pieces. -/
def splitCharAux (sep : Char) : Str → Str → List Str
  | [], acc => [acc.reverse]
  | c :: rest, acc =>
    if c = sep then acc.reverse :: splitCharAux sep rest []
    else splitCharAux sep rest (c :: acc)

/-- Python `s.split(sep)` for a one-character separator. -/
def splitChar (sep : Char) (s : Str) : List Str := splitCharAux sep s []

/-- Python `s.capitalize()`: first character uppercased, the rest lowercased (ASCII). -/
def pyCapitalize : Str → Str
  | [] => []
  | c :: rest => c.toUpper :: rest.map Char.toLower

/-- Python `s.title()` (ASCII): a letter after a non-letter is uppercased,
a letter after a letter lowercased. -/
def pyTitleAux : Bool → Str → Str
  | _, [] => []
  | prevAlpha, c :: rest =>
    (if c.isAlpha then (if prevAlpha then c.toLower else c.toUpper) else c)
      :: pyTitleAux c.isAlpha rest

/-- Python `s.title()` (ASCII). -/
def pyTitle (s : Str) : Str := pyTitleAux false s

/-- Python `' '.join(pieces)`. -/
def joinSpace (pieces : List Str) : Str := (List.intersperse ([' ']) pieces).flatten

/-- Full match of the regex `^\d{8,9}$` compiled as `kenyan_id_pattern` in
`app/utils/ocr_utils.py`: the whole string is 8 or 9 ASCII digits
(`re.fullmatch` does not tolerate a trailing newline). -/
def kenyan_id_fullmatch (s : Str) : Bool :=
  (s.length = 8 || s.length = 9) && s.all pyIsDigit

/-- `OCRService.validate_kenyan_id_number` (`app/utils/ocr_utils.py` 104-118):
`if not id_number: return False` (empty string is falsy), then
`bool(self.kenyan_id_pattern.fullmatch(str(id_number)))`. -/
def validate_kenyan_id_number (s : Str) : Bool :=
  if s = [] then false else kenyan_id_fullmatch s

/-- The endpoint-level check `bool(re.match(r'^\d{7,8}$', id_number))` of
`app/api/endpoints/validation.py` line 96.  Python's `re.match` anchors at
the start, and with no MULTILINE flag `$` matches at the true end of the
string or just before one final newline; so the call is truthy exactly when
the string is 7 or 8 digits, or is 7 or 8 digits followed by one `\n`. -/
def endpoint_id_valid (s : Str) : Bool :=
  ((s.length = 7 || s.length = 8) && s.all pyIsDigit)
    || ((s.length = 8 || s.length = 9) && s.getLast? = some ('\n')
        && s.dropLast.all pyIsDigit)

/-- A pattern of the regex fragment the source uses: literals, character
classes with a `{min,max}` repetition (greedy or lazy), ordered alternation,
sequence, and the empty pattern.  Captures, lookaheads and word boundaries
are handled at the call sites. -/
inductive Pat where
  | eps : Pat
  | lit : Str → Pat
  | cls : (Char → Bool) → Nat → Option Nat → Bool → Pat
  | alt : Pat → Pat → Pat
  | seq : Pat → Pat → Pat

/-- The `(consumed, remainder)` splits a class repetition `p{mn,mx}` can take
of `s`, in the order a backtracking engine tries them: longest first when
greedy, shortest first when lazy. -/
def clsSplits (p : Char → Bool) (mn : Nat) (mx : Option Nat) (greedy : Bool)
    (s : Str) : List (Str × Str) :=
  let run := (s.takeWhile p).length
  let hi := match mx with
    | some m => min m run
    | none => run
  if hi < mn then []
  else
    let lens := (List.range (hi + 1 - mn)).map
      (fun i => if greedy then hi - i else mn + i)
    lens.map (fun n => (s.take n, s.drop n))

/-- All remainders after matching `p` at the start of `s`, in the order a
backtracking engine (Python `re`) tries them: first element = the remainder
of the match the engine commits to first. -/
def patMatch : Pat → Str → List Str
  | .eps, s => [s]
  | .lit l, s => if l.isPrefixOf s then [s.drop l.length] else []
  | .cls p mn mx g, s => (clsSplits p mn mx g s).map (fun r => r.2)
  | .alt p q, s => patMatch p s ++ patMatch q s
  | .seq p q, s => (patMatch p s).flatMap (patMatch q)

/-- Right-nested sequence of patterns. -/
def pseq : List Pat → Pat
  | [] => .eps
  | p :: rest => .seq p (pseq rest)

/-- Literal pattern from a string literal. -/
def plit (s : String) : Pat := .lit s.data

/-- First `some` in a list, in order: the backtracking engine's first success. -/
def firstSome : List (Option α) → Option α
  | [] => none
  | o :: rest => match o with
    | some a => some a
    | none => firstSome rest

/-- `re.search`: try a match at every start position, left to right (the
position after the last character included). -/
def scanS (f : Str → Option α) : Str → Option α
  | [] => f []
  | c :: rest => match f (c :: rest) with
    | some r => some r
    | none => scanS f rest

/-- `re.search` for a pattern whose first element is a word boundary: the
match function also receives the character before the position. -/
def scanB (f : Option Char → Str → Option α) : Option Char → Str → Option α
  | prev, [] => f prev []
  | prev, c :: rest => match f prev (c :: rest) with
    | some r => some r
    | none => scanB f (some c) rest

/-- Match `pre`, then a single capturing class-run `capCls{capMn,}` (greedy or
lazy), then a zero-width lookahead `la`; the captured run of the first overall
success, exactly as the backtracking engine commits. -/
def matchCap (pre : Pat) (capCls : Char → Bool) (capMn : Nat) (capGreedy : Bool)
    (la : Str → Bool) (t : Str) : Option Str :=
  firstSome ((patMatch pre t).map (fun r =>
    firstSome ((clsSplits capCls capMn none capGreedy r).map (fun cr =>
      if la cr.2 then some cr.1 else none))))

/-- Match `pre`, then a capturing group that is an ordered alternation of
literals: the first literal that fits is captured. -/
def matchCapLits (pre : Pat) (lits : List Str) (t : Str) : Option Str :=
  firstSome ((patMatch pre t).map (fun r =>
    firstSome (lits.map (fun l =>
      if l.isPrefixOf r then some l else none))))

/-- Match `pre`, then a capturing group `body` (here a date-like pattern made
of class runs), then a lookahead; the capture is everything `body` consumed. -/
def matchWhole (pre body : Pat) (la : Str → Bool) (t : Str) : Option Str :=
  firstSome ((patMatch pre t).map (fun r1 =>
    firstSome ((patMatch body r1).map (fun r2 =>
      if la r2 then some (r1.take (r1.length - r2.length)) else none))))

/-- A lookahead that always holds (a regex with no lookahead after the capture). -/
def laTrue : Str → Bool := fun _ => true

/-- Regex class `\s` (ASCII whitespace). -/
def isWs (c : Char) : Bool := c.isWhitespace

/-- Regex class `[\s:]`. -/
def isWsColon (c : Char) : Bool := c.isWhitespace || c = ':'

/-- Regex class `\w` (ASCII): letters, digits, underscore. -/
def isWordChar (c : Char) : Bool := c.isAlphanum || c = '_'

/-- Regex class `[a-z]`. -/
def isLowerAlpha (c : Char) : Bool := c.isLower

/-- Regex class `[a-z0-9]`. -/
def isLowerNum (c : Char) : Bool := c.isLower || c.isDigit

/-- Regex class `[a-z0-9\s]`. -/
def isLowerNumWs (c : Char) : Bool := c.isLower || c.isDigit || c.isWhitespace

/-- Regex class `[a-z\s]`. -/
def isLowerWs (c : Char) : Bool := c.isLower || c.isWhitespace

/-- Regex class `[a-z\s-]`. -/
def isLowerWsDash (c : Char) : Bool := c.isLower || c.isWhitespace || c = '-'

/-- Regex class `[A-Z\s]`. -/
def isUpperWs (c : Char) : Bool := c.isUpper || c.isWhitespace

/-- Regex class of the three date separators dot, dash, slash. -/
def isDateSep (c : Char) : Bool := c = '.' || c = '-' || c = '/'

/-- Regex class of the two date separators dash, slash. -/
def isDashSlash (c : Char) : Bool := c = '-' || c = '/'

/-- Shorthand `\s*`. -/
def ws0 : Pat := .cls isWs 0 none true

/-- Shorthand `[\s:]*`. -/
def wsc0 : Pat := .cls isWsColon 0 none true

/-- Shorthand `[\s:]+`. -/
def wsc1 : Pat := .cls isWsColon 1 none true

/-- Date-like body of the regex in `OCRService.extract_kenyan_id_details`
line 86: digits 1-2, dash or slash, digits 1-2, dash or slash, digits 2-4
(the pattern there allows only dash and slash as separators). -/
def datePatApp : Pat :=
  pseq [.cls pyIsDigit 1 (some 2) true, .cls isDashSlash 1 (some 1) true,
    .cls pyIsDigit 1 (some 2) true, .cls isDashSlash 1 (some 1) true,
    .cls pyIsDigit 2 (some 4) true]

/-- A word boundary between the consumed text (which ends in a word
character) and the remainder. -/
def wordBoundaryAfter : Str → Bool
  | [] => true
  | c :: _ => !(isWordChar c)

/-- Whether the previous character makes a word boundary impossible before a
word character (used for a leading word-boundary marker). -/
def prevIsWord : Option Char → Bool
  | some c => isWordChar c
  | none => false

/-- One position of the search for the date regex of
`extract_kenyan_id_details`: leading and trailing word-boundary markers around
the date body.  The date starts with a digit, so the leading boundary is
exactly `prev` not being a word character. -/
def matchDateAppAt (prev : Option Char) (s : Str) : Option Str :=
  if prevIsWord prev then none
  else firstSome ((patMatch datePatApp s).map (fun r =>
    if wordBoundaryAfter r then some (s.take (s.length - r.length)) else none))

/-- `re.search` for the date-of-birth pattern of `extract_kenyan_id_details`
(line 86). -/
def searchDateApp (line : Str) : Option Str := scanB matchDateAppAt none line

/-- Prefix of the gender regex of `extract_kenyan_id_details` line 92:
the label alternation `SEX|GENDER` then the run over colon and whitespace.
Matching is done on a lowercased copy of the line (the Python call sets
`re.IGNORECASE`); capitalizing the captured word gives the same result as
capitalizing the original-case word for ASCII text. -/
def genderPreApp : Pat := .seq (.alt (plit "sex") (plit "gender")) wsc0

/-- One position of the gender search of `extract_kenyan_id_details`: a word
boundary, the label, separators, then the captured word run. -/
def matchGenderAppAt (prev : Option Char) (s : Str) : Option Str :=
  if prevIsWord prev then none
  else matchCap genderPreApp isWordChar 1 true laTrue s

/-- `re.search` for the gender pattern of `extract_kenyan_id_details` (line 92),
on the lowercased line. -/
def searchGenderApp (line : Str) : Option Str :=
  scanB matchGenderAppAt none (pyLower line)

/-- The name heuristic of `extract_kenyan_id_details` lines 97-99: at least two
whitespace-separated words, and every word longer than one character starts
with an uppercase letter. -/
def nameHeuristic (line : Str) : Bool :=
  let ws := splitWs line
  decide (ws.length ≥ 2)
    && (ws.filter (fun w => decide (w.length > 1))).all (fun w => w.headI.isUpper)

/-- The result dict of `OCRService.extract_kenyan_id_details`.  The Python dict
always carries all of these keys, populated or `None` (`other_details` is
initialized to an empty dict and never filled by the extractor, so it is not
modelled). -/
structure AppExtract where
  id_number : Option Str
  full_name : Option Str
  date_of_birth : Option Str
  gender : Option Str
deriving DecidableEq

/-- The body of the per-line loop of `extract_kenyan_id_details` (lines 77-100):
an ID-number full match consumes the line (`continue`); otherwise date of
birth, gender and name are tried in that order, each only while still unset. -/
def processLine (st : AppExtract) (line : Str) : AppExtract :=
  if st.id_number = none && kenyan_id_fullmatch line then
    { st with id_number := some line }
  else
    let st1 := if st.date_of_birth = none then
        match searchDateApp line with
        | some d => { st with date_of_birth := some d }
        | none => st
      else st
    let st2 := if st1.gender = none then
        match searchGenderApp line with
        | some g => { st1 with gender := some (pyCapitalize g) }
        | none => st1
      else st1
    if st2.full_name = none && nameHeuristic line then
      { st2 with full_name := some line }
    else st2

/-- `OCRService.extract_kenyan_id_details` (`app/utils/ocr_utils.py` 52-102),
applied to the text the OCR engine returned for the image (the engine itself
is the opaque external collaborator; a failed `extract_text` returns the
all-`None` dict, which is the same as running the loop on an empty text).
Lines are the newline-split, stripped, non-empty pieces of the text. -/
def extract_kenyan_id_details (text : Str) : AppExtract :=
  let lines := ((splitChar ('\n') text).map pyStrip).filter (fun l => l ≠ [])
  lines.foldl processLine ⟨none, none, none, none⟩

/-- The merge `{**back_details, **front_details}` of
`ValidationService._process_id_card` line 130.  Both extraction dicts always
contain every key (with value `None` when nothing was extracted), so the
front dict's entry wins at every key: the back value is never taken. -/
def merge_details (back front : AppExtract) : AppExtract :=
  { id_number := front.id_number, full_name := front.full_name,
    date_of_birth := front.date_of_birth, gender := front.gender }

/-- `ValidationService._process_id_card` (`app/services/validation_service.py`
121-141), with the two images already replaced by the OCR text each yields. -/
def process_id_card (front_text back_text : Str) : AppExtract :=
  let front_details := extract_kenyan_id_details front_text
  let back_details := extract_kenyan_id_details back_text
  merge_details back_details front_details

/-- `ValidationService._verify_name_match` (lines 211-219): `False` when the
extracted name is `None` or empty (Python falsiness), else case-insensitive
equality. -/
def verify_name_match (provided : Str) (extracted : Option Str) : Bool :=
  match extracted with
  | none => false
  | some e => if e = [] then false else pyLower provided = pyLower e

/-- The phone-validation dict of `ValidationService._validate_phone_number`
and of the endpoint variants. -/
structure PhoneValidationResult where
  is_valid : Bool
  message : Str
  normalized_number : Option Str
deriving DecidableEq

/-- Python `s.isdigit()`: non-empty and all digits. -/
def pyIsDigitStr (s : Str) : Bool := s ≠ [] && s.all pyIsDigit

/-- `ValidationService._validate_phone_number` (`app/services/validation_service.py`
178-209): must start with `+254`, the rest must be digits, total length 13. -/
def validate_phone_number_service (p : Str) : PhoneValidationResult :=
  if !(("+254".data).isPrefixOf p) then
    ⟨false, ("Phone number must start with +254").data, none⟩
  else if !(pyIsDigitStr (p.drop 4)) || p.length ≠ 13 then
    ⟨false, ("Invalid phone number format").data, none⟩
  else
    ⟨true, ("Valid phone number").data, some p⟩

/-- The phonenumbers-based phone validation of
`app/api/endpoints/validation.py` 102-120 and `kyc-validator/src/routes/kyc.py`
29-36, with the external library as opaque parameters: `parse` returns a
parsed object or fails, `isValidNumber` checks it, `formatE164` renders it.
On a successful parse the formatted number is stored whatever
`isValidNumber` said; only a parse failure reaches the exception branch. -/
def endpoint_phone_validation (parse : Str → Option π) (isValidNumber : π → Bool)
    (formatE164 : π → Str) (p : Str) : PhoneValidationResult :=
  match parse p with
  | some parsed => ⟨isValidNumber parsed, ("Valid phone number").data,
      some (formatE164 parsed)⟩
  | none => ⟨false, ("Invalid phone number").data, none⟩

/-- The face-comparison result dict: `is_match`, `confidence`, `message`
(`app/utils/image_utils.py` compare_faces and the `FaceMatchResult` model
share these fields). -/
structure FaceResult where
  is_match : Bool
  confidence : ℚ
  message : Str

/-- `compare_faces` (`app/utils/image_utils.py` 57-95), with the face engine
opaque: `known`/`unknown` are the encoding lists `face_recognition.face_encodings`
returned for the two images and `dist` its `face_distance` metric.  Empty
encodings on either side give the no-match result; otherwise the first
encodings are compared: `confidence = (1 - d) * 100` (no clamping) and
`is_match = d <= tolerance`. -/
def compare_faces (dist : α → α → ℚ) (known unknown : List α)
    (tolerance : ℚ) : FaceResult :=
  match known, unknown with
  | [], _ => ⟨false, 0, ("No faces found in one or both images").data⟩
  | _ :: _, [] => ⟨false, 0, ("No faces found in one or both images").data⟩
  | k :: _, u :: _ =>
    let d := dist k u
    ⟨decide (d ≤ tolerance), (1 - d) * 100, ("Face match").data⟩

/-- `ValidationService._compare_faces` (lines 143-176): face detection on both
images first (`detect_faces`, opaque booleans here); failure on either side
short-circuits to a no-match result with confidence 0, else `compare_faces`
runs on the selfie (known) and ID photo (unknown) encodings. -/
def service_compare_faces (selfie_has_face id_has_face : Bool)
    (dist : α → α → ℚ) (selfie_encodings id_encodings : List α)
    (tolerance : ℚ) : FaceResult :=
  if !(selfie_has_face && id_has_face) then
    ⟨false, 0, ("Could not detect faces in one or both images").data⟩
  else compare_faces dist selfie_encodings id_encodings tolerance

/-- The verdict aggregation of `ValidationService.validate_kenyan_id`
(`app/services/validation_service.py` 74-81):
`all([id_number_valid, id_pattern_matched, face.is_match, phone.is_valid,
name_match])`, where `_validate_id_number` sets both ID flags to the same
format check and `name_match` compares the request name with the OCR-merged
full name. -/
def service_is_verified (id_number name phone front_text back_text : Str)
    (selfie_has_face id_has_face : Bool) (dist : α → α → ℚ)
    (selfie_encodings id_encodings : List α) (tolerance : ℚ) : Bool :=
  let id_number_valid := validate_kenyan_id_number id_number
  let id_pattern_matched := validate_kenyan_id_number id_number
  let ocr := process_id_card front_text back_text
  let face := service_compare_faces selfie_has_face id_has_face dist
    selfie_encodings id_encodings tolerance
  let phone_validation := validate_phone_number_service phone
  let name_match := verify_name_match name ocr.full_name
  id_number_valid && id_pattern_matched && face.is_match
    && phone_validation.is_valid && name_match

/-- Prefix of the name-extraction regex of `kyc-validator/src/routes/kyc.py`
line 57, run on the uppercased combined OCR text: the label alternation
`NAME|FULL NAMES?` then the run over whitespace and colon. -/
def kycNamePre : Pat :=
  .seq (.alt (plit "NAME") (.seq (plit "FULL NAME") (.alt (plit "S") .eps))) wsc0

/-- The lookahead `DATE`, end of text, or `ID` of that regex, in that order. -/
def kycNameLa (r : Str) : Bool :=
  ("DATE".data).isPrefixOf r || r.isEmpty || ("ID".data).isPrefixOf r

/-- `re.search` of the regex at `kyc.py` line 57: greedy capture of an
uppercase-and-whitespace run after the label, bounded by the lookahead. -/
def kyc_search_name (t : Str) : Option Str :=
  scanS (matchCap kycNamePre isUpperWs 1 true kycNameLa) t

/-- The combined OCR text of `kyc.py` line 53: front text, a space, back
text, uppercased. -/
def kyc_combined (front back : Str) : Str := pyUpper (front ++ ([' ']) ++ back)

/-- The extracted full name of `kyc.py` line 61: the captured group stripped
and title-cased when the regex matched, otherwise the submitted name itself. -/
def kyc_extracted_full_name (front back name : Str) : Str :=
  match kyc_search_name (kyc_combined front back) with
  | some c => pyTitle (pyStrip c)
  | none => name

/-- The `name_match` response detail of `kyc.py` line 141:
`extracted_data["full_name"].lower() in name.lower()`. -/
def kyc_name_match (front back name : Str) : Bool :=
  containsSub (pyLower (kyc_extracted_full_name front back name)) (pyLower name)

/-- The core of the phone regex `^(\+254|0)?[17]\d{8}$` of `src/main.py`
line 45: what must follow the optional prefix, a `7` or `1` then eight
digits. -/
def kenyan_core : Str → Bool
  | c :: ds => (c = '7' || c = '1') && ds.length = 8 && ds.all pyIsDigit
  | [] => false

/-- `re.fullmatch` of `^(\+254|0)?[17]\d{8}$` (`src/main.py` line 46): the
optional group is `+254`, `0` or absent, then the core. -/
def phone_regex_full (p : Str) : Bool :=
  kenyan_core p
    || (['0'].isPrefixOf p && kenyan_core (p.drop 1))
    || (("+254".data).isPrefixOf p && kenyan_core (p.drop 4))

/-- The normalization block of `validate_id` (`src/main.py` 52-56): a leading
`0` is replaced by `+254`; a number not starting with `+254` is prefixed with
`+254`; otherwise the number is returned unchanged. -/
def standardize_phone (p : Str) : Str :=
  if ['0'].isPrefixOf p then ("+254".data) ++ p.drop 1
  else if !(("+254".data).isPrefixOf p) then ("+254".data) ++ p
  else p

/-- The conversion tail of `OCRService.extract_phone_number`
(`app/utils/ocr_utils.py` 134-142): leading `0` becomes `+254`, leading `254`
gains a `+`, anything else without a `+` is prefixed `+254`, and a number
already in `+...` form is returned unchanged. -/
def convert_phone (p : Str) : Str :=
  if ['0'].isPrefixOf p then ("+254".data) ++ p.drop 1
  else if ("254".data).isPrefixOf p then ('+') :: p
  else if !(['+'].isPrefixOf p) then ("+254".data) ++ p
  else p

/-- Prefix of the first Huduma ID regex of `parse_id_info`
(`kyc-validator/src/services/ocr_service.py` line 67):
`id\s*number[\s:]*` before the captured `[a-z0-9]+` run. -/
def preHudumaIdA : Pat := pseq [plit "id", ws0, plit "number", wsc0]

/-- `re.search` of the first Huduma ID regex: capture a greedy `[a-z0-9]+`. -/
def searchHudumaIdA (t : Str) : Option Str :=
  scanS (matchCap preHudumaIdA isLowerNum 1 true laTrue) t

/-- Prefix of the fallback Huduma ID regex (line 70): `id\s*number` then a
greedy run over the complement class before the captured run of length 5+. -/
def preHudumaIdB : Pat :=
  pseq [plit "id", ws0, plit "number", .cls (fun c => !(isLowerNum c)) 0 none true]

/-- `re.search` of the fallback Huduma ID regex. -/
def searchHudumaIdB (t : Str) : Option Str :=
  scanS (matchCap preHudumaIdB isLowerNum 5 true laTrue) t

/-- First branch of the national-ID prefix (line 72): `id`, optional spacing,
an optional `no.`/`no`/`number` label (alternatives in the engine's order),
optional spacing, then at least one whitespace-or-colon. -/
def preNationalIdA : Pat :=
  pseq [plit "id", ws0,
    .alt (.alt (.seq (plit "no") (.alt (plit ".") .eps)) (plit "number")) .eps,
    ws0, wsc1]

/-- Second branch of the national-ID prefix: `namba\s*ya\s*kitambulisho[\s:]+`. -/
def preNationalIdB : Pat :=
  pseq [plit "namba", ws0, plit "ya", ws0, plit "kitambulisho", wsc1]

/-- Body of the lookahead `\s+[a-z]+\s*[\s:]` shared by the national-ID,
nationality, district and place regexes. -/
def laNatPat : Pat :=
  pseq [.cls isWs 1 none true, .cls isLowerAlpha 1 none true, ws0,
    .cls isWsColon 1 (some 1) true]

/-- The lookahead of those regexes: the body pattern, or end of text. -/
def laNat (r : Str) : Bool := !(patMatch laNatPat r).isEmpty || r.isEmpty

/-- `re.search` of the national-ID regex (line 72): both label branches, a
lazy `[a-z0-9\s]+?` capture, bounded by the shared lookahead. -/
def searchNationalId (t : Str) : Option Str :=
  scanS (matchCap (.alt preNationalIdA preNationalIdB) isLowerNumWs 1 false laNat) t

/-- The `date\s*of\s*birth` lookahead branch of the name regexes. -/
def laDobPat : Pat := pseq [plit "date", ws0, plit "of", ws0, plit "birth"]

/-- The lookahead `date\s*of\s*birth|dob|sex|$` of the Huduma name regexes
(lines 80 and 94). -/
def laNameHuduma (r : Str) : Bool :=
  !(patMatch laDobPat r).isEmpty || ("dob".data).isPrefixOf r
    || ("sex".data).isPrefixOf r || r.isEmpty

/-- Prefix of the Huduma name regex (line 80):
`(?:full\s*names?|jina\s*kamili)[\s:]*`. -/
def preHudumaName : Pat :=
  pseq [.alt (pseq [plit "full", ws0, plit "name", .alt (plit "s") .eps])
    (pseq [plit "jina", ws0, plit "kamili"]), wsc0]

/-- `re.search` of the Huduma name regex: lazy `[a-z\s]+?` capture. -/
def searchHudumaName (t : Str) : Option Str :=
  scanS (matchCap preHudumaName isLowerWs 1 false laNameHuduma) t

/-- The lookahead `\s+given|\s+sex|$` of the surname regex (line 85). -/
def laSurname (r : Str) : Bool :=
  !(patMatch (pseq [.cls isWs 1 none true, plit "given"]) r).isEmpty
    || !(patMatch (pseq [.cls isWs 1 none true, plit "sex"]) r).isEmpty
    || r.isEmpty

/-- `re.search` of the surname regex `surname[\s:]+([a-z\s-]+?)`. -/
def searchSurname (t : Str) : Option Str :=
  scanS (matchCap (pseq [plit "surname", wsc1]) isLowerWsDash 1 false laSurname) t

/-- The lookahead `\s+sex|$` of the given-name regex (line 86). -/
def laGiven (r : Str) : Bool :=
  !(patMatch (pseq [.cls isWs 1 none true, plit "sex"]) r).isEmpty || r.isEmpty

/-- `re.search` of the given-name regex `given\s*name[\s:]+([a-z\s-]+?)`. -/
def searchGivenName (t : Str) : Option Str :=
  scanS (matchCap (pseq [plit "given", ws0, plit "name", wsc1])
    isLowerWsDash 1 false laGiven) t

/-- `re.search` of the Huduma fallback name regex (line 94):
`names?[\s:]*([a-z\s]+?)` with the same lookahead as the primary one. -/
def searchHudumaNameFb (t : Str) : Option Str :=
  scanS (matchCap (pseq [plit "name", .alt (plit "s") .eps, wsc0])
    isLowerWs 1 false laNameHuduma) t

/-- The lookahead `date\s*of\s*birth|dob|$` of the national fallback name
regex (line 99). -/
def laNameNational (r : Str) : Bool :=
  !(patMatch laDobPat r).isEmpty || ("dob".data).isPrefixOf r || r.isEmpty

/-- `re.search` of the national fallback name regex (line 99):
`(?:id\s*[a-z0-9\s]+)([a-z\s]+?)` with the lazy capture after a greedy run. -/
def searchNationalNameFb (t : Str) : Option Str :=
  scanS (matchCap (pseq [plit "id", ws0, .cls isLowerNumWs 1 none true])
    isLowerWs 1 false laNameNational) t

/-- The captured date body of the date regexes of `parse_id_info`: digits 1-2,
a separator (dot, dash or slash), digits 1-2, a separator, digits 2-4. -/
def datePatDot : Pat :=
  pseq [.cls pyIsDigit 1 (some 2) true, .cls isDateSep 1 (some 1) true,
    .cls pyIsDigit 1 (some 2) true, .cls isDateSep 1 (some 1) true,
    .cls pyIsDigit 2 (some 4) true]

/-- Prefix of the date-of-birth regex (line 104):
`(?:date\s*of\s*birth|siku\s*ya\s*kuzaliwa|dob)[\s:]+`. -/
def preDob : Pat :=
  pseq [.alt (.alt laDobPat (pseq [plit "siku", ws0, plit "ya", ws0, plit "kuzaliwa"]))
    (plit "dob"), wsc1]

/-- `re.search` of the date-of-birth regex; the capture is the whole date body. -/
def searchDob (t : Str) : Option Str := scanS (matchWhole preDob datePatDot laTrue) t

/-- Prefix of the gender regex (line 109): `(?:sex|jinsia)\s*[\s:]+`. -/
def preGenderPid : Pat := pseq [.alt (plit "sex") (plit "jinsia"), ws0, wsc1]

/-- The capture alternation of the gender regex, in the engine's order. -/
def genderToks : List Str :=
  ["male".data, "female".data, ['m'], ['f'], "man".data, "woman".data,
    "mwanaume".data, "mwanamke".data]

/-- `re.search` of the gender regex of `parse_id_info`: the first token of the
alternation that fits right after the label is captured. -/
def searchGenderPid (t : Str) : Option Str := scanS (matchCapLits preGenderPid genderToks) t

/-- The tokens line 112 maps to `'Male'`; every other captured token maps to
`'Female'`. -/
def genderMaleToks : List Str := [['m'], "male".data, "man".data, "mwanaume".data]

/-- `re.search` of the nationality regex (line 115):
`nationality\s*[\s:]+([a-z\s]+?)` with the shared lookahead. -/
def searchNationality (t : Str) : Option Str :=
  scanS (matchCap (pseq [plit "nationality", ws0, wsc1]) isLowerWs 1 false laNat) t

/-- Prefix of the district-of-birth regex (line 120): the four label
alternatives in the engine's order, then `\s*[\s:]+`. -/
def preDistrict : Pat :=
  pseq [.alt (.alt (.alt (pseq [plit "district", ws0, plit "of", ws0, plit "birth"])
    (pseq [plit "birth", ws0, plit "district"]))
    (pseq [plit "place", ws0, plit "of", ws0, plit "birth"]))
    (pseq [plit "mkoa", ws0, plit "wa", ws0, plit "kuzaliwa"]), ws0, wsc1]

/-- `re.search` of the district-of-birth regex. -/
def searchDistrict (t : Str) : Option Str :=
  scanS (matchCap preDistrict isLowerWs 1 false laNat) t

/-- Prefix of the place-of-issue regex (line 125): the four label alternatives
in the engine's order, then `\s*[\s:]+`. -/
def prePlace : Pat :=
  pseq [.alt (.alt (.alt (pseq [plit "place", ws0, plit "of", ws0, plit "issue"])
    (pseq [plit "issued", ws0, plit "at"]))
    (pseq [plit "issue", ws0, plit "place"]))
    (pseq [plit "mkoa", ws0, plit "wa", ws0, plit "utoaji"]), ws0, wsc1]

/-- `re.search` of the place-of-issue regex. -/
def searchPlace (t : Str) : Option Str :=
  scanS (matchCap prePlace isLowerWs 1 false laNat) t

/-- Prefix of the date-of-issue regex (line 130):
`(?:date\s*of\s*issue|issued\s*on|tarehe\s*ya\s*kuandikishwa)[\s:]+`. -/
def preIssueDate : Pat :=
  pseq [.alt (.alt (pseq [plit "date", ws0, plit "of", ws0, plit "issue"])
    (pseq [plit "issued", ws0, plit "on"]))
    (pseq [plit "tarehe", ws0, plit "ya", ws0, plit "kuandikishwa"]), wsc1]

/-- `re.search` of the date-of-issue regex. -/
def searchIssueDate (t : Str) : Option Str :=
  scanS (matchWhole preIssueDate datePatDot laTrue) t

/-- Prefix of the expiry-date regex (line 135):
`(?:date\s*of\s*expiry|expiry\s*date|tarehe\s*ya\s*kuisha)[\s:]+`. -/
def preExpiry : Pat :=
  pseq [.alt (.alt (pseq [plit "date", ws0, plit "of", ws0, plit "expiry"])
    (pseq [plit "expiry", ws0, plit "date"]))
    (pseq [plit "tarehe", ws0, plit "ya", ws0, plit "kuisha"]), wsc1]

/-- The second capture alternative of the expiry regex: a lowercase-letter
run, optional spacing, digits 1-2, a separator (dot, dash or slash),
digits 2-4. -/
def expiryAltPat : Pat :=
  pseq [.cls isLowerAlpha 1 none true, ws0, .cls pyIsDigit 1 (some 2) true,
    .cls isDateSep 1 (some 1) true, .cls pyIsDigit 2 (some 4) true]

/-- `re.search` of the expiry-date regex: the capture is either date shape. -/
def searchExpiry (t : Str) : Option Str :=
  scanS (matchWhole preExpiry (.alt datePatDot expiryAltPat) laTrue) t

/-- The parsed-ID record of `parse_id_info`.  Python returns a dict holding the
non-`None` entries plus `raw_text`; here an absent entry is `none`.  The
`error` note of the `except` branch has no counterpart: the embedding is a
total function, so the branch is unreachable. -/
structure IdInfo where
  id_number : Option Str
  full_name : Option Str
  date_of_birth : Option Str
  gender : Option Str
  document_type : Option Str
  nationality : Option Str
  place_of_issue : Option Str
  date_of_issue : Option Str
  expiry_date : Option Str
  district_of_birth : Option Str
  raw_text : Str
deriving DecidableEq

/-- `parse_id_info` (`kyc-validator/src/services/ocr_service.py` 29-144): the
text is lowercased, the document type classified by keywords, and each field
populated by its regex cascade exactly as in the source (the `re.IGNORECASE`
flags are redundant on the lowercased text). -/
def parse_id_info (ocr_text : Str) : IdInfo :=
  let text := pyLower ocr_text
  let document_type : Option Str :=
    if containsSub ("huduma".data) text then some ("huduma_card".data)
    else if containsSub ("national".data) text && containsSub ("identity".data) text then
      some ("national_id".data)
    else none
  let idCapture : Option Str :=
    if document_type = some ("huduma_card".data) then
      match searchHudumaIdA text with
      | some c => some c
      | none => searchHudumaIdB text
    else searchNationalId text
  let id_number := idCapture.map (fun c => pyUpper (pyStrip c))
  let primary_name : Option Str :=
    if document_type = some ("huduma_card".data) then
      (searchHudumaName text).map
        (fun c => joinSpace ((splitWs (pyStrip c)).map pyCapitalize))
    else
      match searchSurname text, searchGivenName text with
      | some s, some g => some (pyTitle (pyStrip s) ++ ([' ']) ++ pyTitle (pyStrip g))
      | _, _ => none
  let full_name : Option Str :=
    match primary_name with
    | some n => some n
    | none =>
      if document_type = some ("huduma_card".data) then
        (searchHudumaNameFb text).map
          (fun c => joinSpace ((splitWs (pyStrip c)).map pyCapitalize))
      else
        (searchNationalNameFb text).map
          (fun c => joinSpace ((splitWs c).map pyCapitalize))
  let date_of_birth := (searchDob text).map (fun c => c.filter (fun ch => ch ≠ ' '))
  let gender := (searchGenderPid text).map
    (fun g => if genderMaleToks.contains (pyLower g) then ("Male".data)
      else ("Female".data))
  let nationality := (searchNationality text).map (fun c => pyTitle (pyStrip c))
  let district_of_birth := (searchDistrict text).map (fun c => pyTitle (pyStrip c))
  let place_of_issue := (searchPlace text).map (fun c => pyTitle (pyStrip c))
  let date_of_issue := (searchIssueDate text).map (fun c => c.filter (fun ch => ch ≠ ' '))
  let expiry_date := (searchExpiry text).map (fun c => c.filter (fun ch => ch ≠ ' '))
  ⟨id_number, full_name, date_of_birth, gender, document_type, nationality,
    place_of_issue, date_of_issue, expiry_date, district_of_birth, ocr_text⟩

/-- The label substrings at least one of which every regex of `parse_id_info`
(and its document-type classification) needs to find in the lowercased text
before anything can match. -/
def labelTokens : List Str :=
  ["id".data, "namba".data, "full".data, "jina".data, "surname".data,
    "given".data, "name".data, "date".data, "siku".data, "dob".data,
    "sex".data, "jinsia".data, "nationality".data, "district".data,
    "birth".data, "place".data, "mkoa".data, "issued".data, "issue".data,
    "expiry".data, "tarehe".data, "huduma".data, "national".data,
    "identity".data]

/-- Text with none of the label substrings anywhere. -/
def noLabelTokens (s : Str) : Bool := labelTokens.all (fun l => !(containsSub l s))

lemma containsSub_self (l : Str) : containsSub l l = true := by
  cases l with
  | nil => rfl
  | cons c t =>
    simp [containsSub, List.isPrefixOf_iff_prefix]

lemma isPrefixOf_false_of_containsSub_false {L s : Str}
    (h : containsSub L s = false) :
    ∀ t v, v ++ t = s → L.isPrefixOf t = false := by
  induction s with
  | nil =>
    intro t v hv
    rcases List.append_eq_nil.mp hv with ⟨rfl, rfl⟩
    simpa [containsSub] using h
  | cons c rest ih =>
    intro t v hv
    have h' : L.isPrefixOf (c :: rest) = false ∧ containsSub L rest = false := by
      simpa [containsSub] using h
    cases v with
    | nil =>
      simpa [← hv] using h'.1
    | cons d v' =>
      have hv' : v' ++ t = rest := by
        simpa using congrArg List.tail hv
      exact ih h'.2 t v' hv'

lemma scanS_eq_none {f : Str → Option β} {s : Str}
    (h : ∀ t v, v ++ t = s → f t = none) : scanS f s = none := by
  induction s with
  | nil => simpa [scanS] using h [] [] rfl
  | cons c rest ih =>
    have h0 : f (c :: rest) = none := h (c :: rest) [] rfl
    have hr : scanS f rest = none := ih (fun t v hv => h t (c :: v) (by simp [hv]))
    simp [scanS, h0, hr]

lemma matchCap_eq_none {pre : Pat} {cl : Char → Bool} {mn : Nat} {g : Bool}
    {la : Str → Bool} {t : Str} (h : patMatch pre t = []) :
    matchCap pre cl mn g la t = none := by
  simp [matchCap, h, firstSome]

lemma matchCapLits_eq_none {pre : Pat} {lits : List Str} {t : Str}
    (h : patMatch pre t = []) : matchCapLits pre lits t = none := by
  simp [matchCapLits, h, firstSome]

lemma matchWhole_eq_none {pre body : Pat} {la : Str → Bool} {t : Str}
    (h : patMatch pre t = []) : matchWhole pre body la t = none := by
  simp [matchWhole, h, firstSome]

lemma patMatch_seq_nil {p q : Pat} {t : Str} (h : patMatch p t = []) :
    patMatch (.seq p q) t = [] := by simp [patMatch, h]

lemma patMatch_alt_nil {p q : Pat} {t : Str} (h1 : patMatch p t = [])
    (h2 : patMatch q t = []) : patMatch (.alt p q) t = [] := by
  simp [patMatch, h1, h2]

lemma patMatch_lit_nil {L t : Str} (h : L.isPrefixOf t = false) :
    patMatch (.lit L) t = [] := by simp [patMatch, h]

lemma patMatch_plit_nil {w : String} {t : Str} (h : (w.data).isPrefixOf t = false) :
    patMatch (plit w) t = [] := patMatch_lit_nil h

lemma patMatch_pseq_head_nil {p : Pat} {r : List Pat} {t : Str}
    (h : patMatch p t = []) : patMatch (pseq (p :: r)) t = [] :=
  patMatch_seq_nil h

lemma searchNationalId_eq_none {s : Str}
    (h1 : containsSub ("id".data) s = false)
    (h2 : containsSub ("namba".data) s = false) :
    searchNationalId s = none := by
  apply scanS_eq_none; intro t v hv
  exact matchCap_eq_none (patMatch_alt_nil
    (patMatch_pseq_head_nil (patMatch_plit_nil
      (isPrefixOf_false_of_containsSub_false h1 t v hv)))
    (patMatch_pseq_head_nil (patMatch_plit_nil
      (isPrefixOf_false_of_containsSub_false h2 t v hv))))

lemma searchHudumaName_eq_none {s : Str}
    (h1 : containsSub ("full".data) s = false)
    (h2 : containsSub ("jina".data) s = false) :
    searchHudumaName s = none := by
  apply scanS_eq_none; intro t v hv
  exact matchCap_eq_none (patMatch_pseq_head_nil (patMatch_alt_nil
    (patMatch_pseq_head_nil (patMatch_plit_nil
      (isPrefixOf_false_of_containsSub_false h1 t v hv)))
    (patMatch_pseq_head_nil (patMatch_plit_nil
      (isPrefixOf_false_of_containsSub_false h2 t v hv)))))

lemma searchSurname_eq_none {s : Str}
    (h : containsSub ("surname".data) s = false) :
    searchSurname s = none := by
  apply scanS_eq_none; intro t v hv
  exact matchCap_eq_none (patMatch_pseq_head_nil (patMatch_plit_nil
    (isPrefixOf_false_of_containsSub_false h t v hv)))

lemma searchGivenName_eq_none {s : Str}
    (h : containsSub ("given".data) s = false) :
    searchGivenName s = none := by
  apply scanS_eq_none; intro t v hv
  exact matchCap_eq_none (patMatch_pseq_head_nil (patMatch_plit_nil
    (isPrefixOf_false_of_containsSub_false h t v hv)))

lemma searchHudumaNameFb_eq_none {s : Str}
    (h : containsSub ("name".data) s = false) :
    searchHudumaNameFb s = none := by
  apply scanS_eq_none; intro t v hv
  exact matchCap_eq_none (patMatch_pseq_head_nil (patMatch_plit_nil
    (isPrefixOf_false_of_containsSub_false h t v hv)))

lemma searchNationalNameFb_eq_none {s : Str}
    (h : containsSub ("id".data) s = false) :
    searchNationalNameFb s = none := by
  apply scanS_eq_none; intro t v hv
  exact matchCap_eq_none (patMatch_pseq_head_nil (patMatch_plit_nil
    (isPrefixOf_false_of_containsSub_false h t v hv)))

lemma searchDob_eq_none {s : Str}
    (h1 : containsSub ("date".data) s = false)
    (h2 : containsSub ("siku".data) s = false)
    (h3 : containsSub ("dob".data) s = false) :
    searchDob s = none := by
  apply scanS_eq_none; intro t v hv
  exact matchWhole_eq_none (patMatch_pseq_head_nil (patMatch_alt_nil
    (patMatch_alt_nil
      (patMatch_pseq_head_nil (patMatch_plit_nil
        (isPrefixOf_false_of_containsSub_false h1 t v hv)))
      (patMatch_pseq_head_nil (patMatch_plit_nil
        (isPrefixOf_false_of_containsSub_false h2 t v hv))))
    (patMatch_plit_nil (isPrefixOf_false_of_containsSub_false h3 t v hv))))

lemma searchGenderPid_eq_none {s : Str}
    (h1 : containsSub ("sex".data) s = false)
    (h2 : containsSub ("jinsia".data) s = false) :
    searchGenderPid s = none := by
  apply scanS_eq_none; intro t v hv
  exact matchCapLits_eq_none (patMatch_pseq_head_nil (patMatch_alt_nil
    (patMatch_plit_nil (isPrefixOf_false_of_containsSub_false h1 t v hv))
    (patMatch_plit_nil (isPrefixOf_false_of_containsSub_false h2 t v hv))))

lemma searchNationality_eq_none {s : Str}
    (h : containsSub ("nationality".data) s = false) :
    searchNationality s = none := by
  apply scanS_eq_none; intro t v hv
  exact matchCap_eq_none (patMatch_pseq_head_nil (patMatch_plit_nil
    (isPrefixOf_false_of_containsSub_false h t v hv)))

lemma searchDistrict_eq_none {s : Str}
    (h1 : containsSub ("district".data) s = false)
    (h2 : containsSub ("birth".data) s = false)
    (h3 : containsSub ("place".data) s = false)
    (h4 : containsSub ("mkoa".data) s = false) :
    searchDistrict s = none := by
  apply scanS_eq_none; intro t v hv
  exact matchCap_eq_none (patMatch_pseq_head_nil (patMatch_alt_nil
    (patMatch_alt_nil
      (patMatch_alt_nil
        (patMatch_pseq_head_nil (patMatch_plit_nil
          (isPrefixOf_false_of_containsSub_false h1 t v hv)))
        (patMatch_pseq_head_nil (patMatch_plit_nil
          (isPrefixOf_false_of_containsSub_false h2 t v hv))))
      (patMatch_pseq_head_nil (patMatch_plit_nil
        (isPrefixOf_false_of_containsSub_false h3 t v hv))))
    (patMatch_pseq_head_nil (patMatch_plit_nil
      (isPrefixOf_false_of_containsSub_false h4 t v hv)))))

lemma searchPlace_eq_none {s : Str}
    (h1 : containsSub ("place".data) s = false)
    (h2 : containsSub ("issued".data) s = false)
    (h3 : containsSub ("issue".data) s = false)
    (h4 : containsSub ("mkoa".data) s = false) :
    searchPlace s = none := by
  apply scanS_eq_none; intro t v hv
  exact matchCap_eq_none (patMatch_pseq_head_nil (patMatch_alt_nil
    (patMatch_alt_nil
      (patMatch_alt_nil
        (patMatch_pseq_head_nil (patMatch_plit_nil
          (isPrefixOf_false_of_containsSub_false h1 t v hv)))
        (patMatch_pseq_head_nil (patMatch_plit_nil
          (isPrefixOf_false_of_containsSub_false h2 t v hv))))
      (patMatch_pseq_head_nil (patMatch_plit_nil
        (isPrefixOf_false_of_containsSub_false h3 t v hv))))
    (patMatch_pseq_head_nil (patMatch_plit_nil
      (isPrefixOf_false_of_containsSub_false h4 t v hv)))))

lemma searchIssueDate_eq_none {s : Str}
    (h1 : containsSub ("date".data) s = false)
    (h2 : containsSub ("issued".data) s = false)
    (h3 : containsSub ("tarehe".data) s = false) :
    searchIssueDate s = none := by
  apply scanS_eq_none; intro t v hv
  exact matchWhole_eq_none (patMatch_pseq_head_nil (patMatch_alt_nil
    (patMatch_alt_nil
      (patMatch_pseq_head_nil (patMatch_plit_nil
        (isPrefixOf_false_of_containsSub_false h1 t v hv)))
      (patMatch_pseq_head_nil (patMatch_plit_nil
        (isPrefixOf_false_of_containsSub_false h2 t v hv))))
    (patMatch_pseq_head_nil (patMatch_plit_nil
      (isPrefixOf_false_of_containsSub_false h3 t v hv)))))

lemma searchExpiry_eq_none {s : Str}
    (h1 : containsSub ("date".data) s = false)
    (h2 : containsSub ("expiry".data) s = false)
    (h3 : containsSub ("tarehe".data) s = false) :
    searchExpiry s = none := by
  apply scanS_eq_none; intro t v hv
  exact matchWhole_eq_none (patMatch_pseq_head_nil (patMatch_alt_nil
    (patMatch_alt_nil
      (patMatch_pseq_head_nil (patMatch_plit_nil
        (isPrefixOf_false_of_containsSub_false h1 t v hv)))
      (patMatch_pseq_head_nil (patMatch_plit_nil
        (isPrefixOf_false_of_containsSub_false h2 t v hv))))
    (patMatch_pseq_head_nil (patMatch_plit_nil
      (isPrefixOf_false_of_containsSub_false h3 t v hv)))))

/-- Claim C3. -/
theorem c3_face_match_iff {α : Type} (dist : α → α → ℚ) (k u : α)
    (ks us bs : List α) (t : ℚ) :
    ((compare_faces dist (k :: ks) (u :: us) t).is_match = true ↔ dist k u ≤ t)
    ∧ ((compare_faces dist ([] : List α) bs t).is_match = false
        ∧ (compare_faces dist ([] : List α) bs t).confidence = 0)
    ∧ ((compare_faces dist bs ([] : List α) t).is_match = false
        ∧ (compare_faces dist bs ([] : List α) t).confidence = 0) := by
  refine ⟨by simp [compare_faces], by simp [compare_faces], ?_⟩
  cases bs <;> simp [compare_faces]

/-- Claim C4. -/
theorem c4_id_format :
    (∀ s : Str, validate_kenyan_id_number s = true ↔
      (s.length = 8 ∨ s.length = 9) ∧ s.all pyIsDigit = true)
    ∧ (∀ s : Str, endpoint_id_valid s = true ↔
      ((s.length = 7 ∨ s.length = 8) ∧ s.all pyIsDigit = true)
      ∨ ((s.length = 8 ∨ s.length = 9) ∧ s.getLast? = some ('\n')
          ∧ s.dropLast.all pyIsDigit = true))
    ∧ (validate_kenyan_id_number ("123456".data) = false
      ∧ validate_kenyan_id_number ("1234567".data) = false
      ∧ validate_kenyan_id_number ("12345678".data) = true
      ∧ validate_kenyan_id_number ("123456789".data) = true
      ∧ validate_kenyan_id_number ("1234567890".data) = false)
    ∧ (endpoint_id_valid ("123456".data) = false
      ∧ endpoint_id_valid ("1234567".data) = true
      ∧ endpoint_id_valid ("12345678".data) = true
      ∧ endpoint_id_valid ("123456789".data) = false
      ∧ endpoint_id_valid ("1234567890".data) = false) := by
  refine ⟨?_, ?_, by decide, by decide⟩
  · intro s
    by_cases h : s = [] <;>
      simp [validate_kenyan_id_number, kenyan_id_fullmatch, h]
  · intro s
    simp [endpoint_id_valid, and_assoc]

/-- Claim C6 counterexample. -/
theorem c6_counterexample :
    (endpoint_phone_validation (fun _ : Str => some ()) (fun _ : Unit => false)
      (fun _ : Unit => ("+12345678901".data)) (("+12345678901".data))).is_valid = false
    ∧ (endpoint_phone_validation (fun _ : Str => some ()) (fun _ : Unit => false)
      (fun _ : Unit => ("+12345678901".data)) (("+12345678901".data))).normalized_number
        = some ("+12345678901".data) := by
  exact ⟨rfl, rfl⟩

/-- Claim C6 amended. -/
theorem c6_amended :
    (∀ p : Str, ((validate_phone_number_service p).normalized_number).isSome
      = (validate_phone_number_service p).is_valid)
    ∧ (∀ (π : Type) (parse : Str → Option π) (iv : π → Bool) (fmt : π → Str)
        (p : Str),
        ((endpoint_phone_validation parse iv fmt p).normalized_number).isSome
          = ((parse p).isSome)) := by
  constructor
  · intro p
    unfold validate_phone_number_service
    split
    · rfl
    · split <;> rfl
  · intro π parse iv fmt p
    unfold endpoint_phone_validation
    rcases parse p with _ | x <;> rfl

/-- Claim C8 counterexample. -/
theorem c8_counterexample :
    (compare_faces (fun _ _ : Unit => 2) [()] [()] (3/5)).confidence = -100
    ∧ (compare_faces (fun _ _ : Unit => 2) [()] [()] (3/5)).confidence < 0 := by
  constructor <;> · simp [compare_faces]; norm_num

/-- Claim C8 amended. -/
theorem c8_amended {α : Type} (dist : α → α → ℚ) (k u : α) (ks us : List α)
    (t : ℚ) :
    (compare_faces dist (k :: ks) (u :: us) t).confidence = (1 - dist k u) * 100
    ∧ (0 ≤ dist k u → dist k u ≤ 1 →
        0 ≤ (compare_faces dist (k :: ks) (u :: us) t).confidence
        ∧ (compare_faces dist (k :: ks) (u :: us) t).confidence ≤ 100) := by
  refine ⟨by simp [compare_faces], fun h0 h1 => ?_⟩
  constructor <;> · simp [compare_faces]; nlinarith

/-- Witness for C8 amended. -/
theorem c8_amended_witness :
    (0 : ℚ) ≤ 1/2 ∧ (1/2 : ℚ) ≤ 1
    ∧ 0 ≤ (compare_faces (fun _ _ : Unit => 1/2) [()] [()] (3/5)).confidence
    ∧ (compare_faces (fun _ _ : Unit => 1/2) [()] [()] (3/5)).confidence ≤ 100 :=
  ⟨by norm_num, by norm_num,
    ((c8_amended (fun _ _ : Unit => 1/2) () () [] [] (3/5)).2
      (by norm_num) (by norm_num)).1,
    ((c8_amended (fun _ _ : Unit => 1/2) () () [] [] (3/5)).2
      (by norm_num) (by norm_num)).2⟩

/-- Claim C5. -/
theorem c5_phone_normalization (rest : Str) (h : kenyan_core rest = true) :
    standardize_phone (('0') :: rest) = ("+254".data) ++ rest
    ∧ standardize_phone (("+254".data) ++ rest) = ("+254".data) ++ rest
    ∧ standardize_phone (standardize_phone (('0') :: rest))
        = standardize_phone (('0') :: rest)
    ∧ convert_phone (('0') :: rest) = ("+254".data) ++ rest
    ∧ convert_phone (("+254".data) ++ rest) = ("+254".data) ++ rest := by
  have hd : ("+254".data) = ['+', '2', '5', '4'] := rfl
  have h254 : ("254".data) = ['2', '5', '4'] := rfl
  have h1 : standardize_phone (('0') :: rest) = ("+254".data) ++ rest := by
    simp [standardize_phone, List.isPrefixOf]
  have h2 : standardize_phone (("+254".data) ++ rest) = ("+254".data) ++ rest := by
    simp [standardize_phone, hd, List.isPrefixOf]
  refine ⟨h1, h2, ?_, ?_, ?_⟩
  · rw [h1, h2]
  · simp [convert_phone, List.isPrefixOf]
  · simp [convert_phone, hd, h254, List.isPrefixOf]

/-- Witness for C5. -/
theorem c5_phone_normalization_witness :
    kenyan_core ("712345678".data) = true
    ∧ (standardize_phone (('0') :: ("712345678".data))
        = ("+254".data) ++ ("712345678".data)
      ∧ standardize_phone (("+254".data) ++ ("712345678".data))
        = ("+254".data) ++ ("712345678".data)
      ∧ standardize_phone (standardize_phone (('0') :: ("712345678".data)))
        = standardize_phone (('0') :: ("712345678".data))
      ∧ convert_phone (('0') :: ("712345678".data))
        = ("+254".data) ++ ("712345678".data)
      ∧ convert_phone (("+254".data) ++ ("712345678".data))
        = ("+254".data) ++ ("712345678".data)) :=
  ⟨by decide, c5_phone_normalization ("712345678".data) (by decide)⟩

/-- Claim C10. -/
theorem c10_default_name_match (front back name : Str)
    (h : kyc_search_name (kyc_combined front back) = none) :
    kyc_extracted_full_name front back name = name
    ∧ kyc_name_match front back name = true := by
  have h1 : kyc_extracted_full_name front back name = name := by
    unfold kyc_extracted_full_name; rw [h]
  exact ⟨h1, by unfold kyc_name_match; rw [h1]; exact containsSub_self _⟩

/-- Witness for C10. -/
theorem c10_default_name_match_witness :
    kyc_search_name (kyc_combined ("XYZ".data) []) = none
    ∧ (kyc_extracted_full_name ("XYZ".data) [] ("Bob".data) = ("Bob".data)
      ∧ kyc_name_match ("XYZ".data) [] ("Bob".data) = true) :=
  ⟨by decide, c10_default_name_match ("XYZ".data) [] ("Bob".data) (by decide)⟩

/-- Claim C2. -/
theorem c2_merge_discards_back :
    (process_id_card [] ("12345678".data)).id_number = none
    ∧ (extract_kenyan_id_details ("12345678".data)).id_number
        = some ("12345678".data) := by
  constructor <;> decide

/-- Claim C9 counterexample. -/
theorem c9_counterexample :
    (extract_kenyan_id_details ("SEX F".data)).gender = some (['F'])
    ∧ (['F'] : Str) ≠ ("Male".data) ∧ (['F'] : Str) ≠ ("Female".data) := by
  refine ⟨by decide, by decide, by decide⟩

/-- Claim C9 amended. -/
theorem c9_amended (t : Str) :
    (parse_id_info t).gender = none
    ∨ (parse_id_info t).gender = some ("Male".data)
    ∨ (parse_id_info t).gender = some ("Female".data) := by
  have hg : (parse_id_info t).gender
      = (searchGenderPid (pyLower t)).map
        (fun g => if genderMaleToks.contains (pyLower g) then ("Male".data)
          else ("Female".data)) := rfl
  rw [hg]
  rcases searchGenderPid (pyLower t) with _ | g
  · exact Or.inl rfl
  · by_cases hc : genderMaleToks.contains (pyLower g) = true
    · refine Or.inr (Or.inl ?_)
      show some (if genderMaleToks.contains (pyLower g) = true then ("Male".data)
        else ("Female".data)) = some ("Male".data)
      rw [if_pos hc]
    · refine Or.inr (Or.inr ?_)
      show some (if genderMaleToks.contains (pyLower g) = true then ("Male".data)
        else ("Female".data)) = some ("Female".data)
      rw [if_neg hc]

/-- Claim C1 counterexample. -/
theorem c1_counterexample :
    service_is_verified ("12345678".data) ("John Kamau".data)
      ("+254712345678".data) ("John Kamau".data) [] true true
      (fun _ _ : Unit => 0) [()] [()] (3/5) = true
    ∧ (process_id_card ("John Kamau".data) []).id_number = none := by
  constructor
  · have hface : (service_compare_faces true true (fun _ _ : Unit => 0)
        [()] [()] (3/5)).is_match = true := by
      simp [service_compare_faces, compare_faces]
      norm_num
    simp only [service_is_verified, hface]
    decide
  · decide

/-- Claim C1 amended. -/
theorem c1_amended {α : Type} (dist : α → α → ℚ) (idn nm ph fr bk : Str)
    (shf ihf : Bool) (se ie : List α) (tol : ℚ) :
    service_is_verified idn nm ph fr bk shf ihf dist se ie tol
      = (validate_kenyan_id_number idn
        && (service_compare_faces shf ihf dist se ie tol).is_match
        && (validate_phone_number_service ph).is_valid
        && verify_name_match nm (process_id_card fr bk).full_name) := by
  unfold service_is_verified
  cases validate_kenyan_id_number idn <;> simp

/-- Claim C7 counterexample. -/
theorem c7_counterexample :
    noLabelTokens (pyLower ("John Kamau".data)) = true
    ∧ (extract_kenyan_id_details ("John Kamau".data)).full_name
        = some ("John Kamau".data) := by
  constructor <;> decide

/-- Claim C7 amended. -/
theorem c7_amended :
    (∀ t : Str, (parse_id_info t).raw_text = t)
    ∧ (∀ t : Str, noLabelTokens (pyLower t) = true →
        parse_id_info t
          = ⟨none, none, none, none, none, none, none, none, none, none, t⟩) := by
  constructor
  · intro t; rfl
  · intro t h
    simp only [noLabelTokens, labelTokens, List.all_cons, List.all_nil,
      Bool.and_eq_true, Bool.not_eq_true'] at h
    obtain ⟨hid, hnamba, hfull, hjina, hsurname, hgiven, hname, hdate, hsiku,
      hdob, hsex, hjinsia, hnationality, hdistrict, hbirth, hplace, hmkoa,
      hissued, hissue, hexpiry, htarehe, hhuduma, hnational, hidentity⟩ := h
    have e1 : searchNationalId (pyLower t) = none :=
      searchNationalId_eq_none hid hnamba
    have e2 : searchSurname (pyLower t) = none := searchSurname_eq_none hsurname
    have e3 : searchGivenName (pyLower t) = none := searchGivenName_eq_none hgiven
    have e4 : searchNationalNameFb (pyLower t) = none :=
      searchNationalNameFb_eq_none hid
    have e5 : searchDob (pyLower t) = none := searchDob_eq_none hdate hsiku hdob
    have e6 : searchGenderPid (pyLower t) = none :=
      searchGenderPid_eq_none hsex hjinsia
    have e7 : searchNationality (pyLower t) = none :=
      searchNationality_eq_none hnationality
    have e8 : searchDistrict (pyLower t) = none :=
      searchDistrict_eq_none hdistrict hbirth hplace hmkoa
    have e9 : searchPlace (pyLower t) = none :=
      searchPlace_eq_none hplace hissued hissue hmkoa
    have e10 : searchIssueDate (pyLower t) = none :=
      searchIssueDate_eq_none hdate hissued htarehe
    have e11 : searchExpiry (pyLower t) = none :=
      searchExpiry_eq_none hdate hexpiry htarehe
    simp only [parse_id_info, hhuduma, hnational, Bool.false_and, if_false,
      e1, e2, e3, e4, e5, e6, e7, e8, e9, e10, e11, Option.map_none']
    simp

/-- Witness for C7 amended. -/
theorem c7_amended_witness :
    noLabelTokens (pyLower ("qwerty zz".data)) = true
    ∧ parse_id_info ("qwerty zz".data)
        = ⟨none, none, none, none, none, none, none, none, none, none,
            ("qwerty zz".data)⟩ :=
  ⟨by decide, c7_amended.2 ("qwerty zz".data) (by decide)⟩
